import Mathlib

/-!
Shallow embedding of the moon-engine core (transform / input / player
subsystem) and proofs about it.

Source files embedded: `src/moon/src/transform.rs`, `src/moon/src/input.rs`,
`src/moon/src/game.rs`.

Modelling conventions:
* `f32` values are modelled as exact rationals (`ℚ`); the claims under study
  are structural (which field is updated, by what expression), not about
  floating-point rounding.
* nalgebra's `Vector2` / `Vector3` are small structures of rationals;
  `Matrix4` is `Matrix (Fin 4) (Fin 4) ℚ` with genuine matrix multiplication.
* nalgebra's `Mat4::new_rotation` (axis-angle via trigonometry) is external
  library code, not part of this repository; it is kept as an explicit
  parameter `Rot : Vec3 → Mat4` of the transform operations, so every theorem
  about `Transform` holds for whatever rotation-matrix builder the library
  supplies.
* The Rust field and method name `rotation` is rendered `rot` throughout;
  everything else keeps the source name where Lean allows it.
* `BTreeSet<Key>` is modelled as `Finset Key`; `BTreeMap<PlayerState, SubTexture>`
  as a function `PlayerState → Option SubTexture`.
-/

namespace Moon

/-- Model of nalgebra `Vector2<f32>` (`Vec2` in the crate). -/
structure Vec2 where
  x : ℚ
  y : ℚ
deriving DecidableEq

/-- Model of nalgebra `Vector3<f32>` (`Vec3` in the crate). -/
structure Vec3 where
  x : ℚ
  y : ℚ
  z : ℚ
deriving DecidableEq

/-- Componentwise addition, as nalgebra `Vector2 + Vector2`. -/
instance : Add Vec2 where
  add a b := ⟨a.x + b.x, a.y + b.y⟩

/-- `Vec2::zeros()`. -/
def Vec2.zeros : Vec2 := ⟨0, 0⟩

/-- Scalar multiplication `Vector2<f32> * f32` from nalgebra. -/
def Vec2.smul (v : Vec2) (c : ℚ) : Vec2 := ⟨v.x * c, v.y * c⟩

/-- `Vec3::zeros()`. -/
def Vec3.zeros : Vec3 := ⟨0, 0, 0⟩

/-- `Vec3::z()`, the unit vector along the Z axis (named `unit_z` here because
`Vec3.z` is taken by the field accessor). -/
def Vec3.unit_z : Vec3 := ⟨0, 0, 1⟩

/-- Scalar multiplication `Vector3<f32> * f32` from nalgebra. -/
def Vec3.smul (v : Vec3) (c : ℚ) : Vec3 := ⟨v.x * c, v.y * c, v.z * c⟩

/-- Model of nalgebra `Matrix4<f32>` (`Mat4` in the crate). -/
abbrev Mat4 := Matrix (Fin 4) (Fin 4) ℚ

/-- nalgebra `Mat4::new_translation(&v)`: homogeneous translation matrix. -/
def Mat4.new_translation (v : Vec3) : Mat4 :=
  !![1, 0, 0, v.x;
     0, 1, 0, v.y;
     0, 0, 1, v.z;
     0, 0, 0, 1]

/-- nalgebra `Mat4::new_nonuniform_scaling(&v)`: homogeneous scaling matrix. -/
def Mat4.new_nonuniform_scaling (v : Vec3) : Mat4 :=
  !![v.x, 0, 0, 0;
     0, v.y, 0, 0;
     0, 0, v.z, 0;
     0, 0, 0, 1]

/-- `Transform` from `transform.rs`: cached matrix plus position, rotation
(field `rot` here) and scale vectors. -/
structure Transform where
  matrix : Mat4
  position : Vec3
  rot : Vec3
  scale : Vec3

/-- `Transform::default()`: identity matrix, zero position and rotation,
unit scale (`Vec3::from_element(1.0)`). -/
def Transform.default : Transform :=
  { matrix := 1, position := Vec3.zeros, rot := Vec3.zeros, scale := ⟨1, 1, 1⟩ }

/-- `Transform::recalculate_matrix`: sets the cached matrix to
`Mat4::new_translation(&position) * Mat4::new_rotation(rotation) *
Mat4::new_nonuniform_scaling(&scale)`. The rotation-matrix builder `Rot`
stands for the external `Mat4::new_rotation`. -/
def Transform.recalculate_matrix (Rot : Vec3 → Mat4) (t : Transform) : Transform :=
  { t with matrix :=
      Mat4.new_translation t.position * Rot t.rot * Mat4.new_nonuniform_scaling t.scale }

/-- `Transform::set_position`: stores the position, then recalculates the matrix. -/
def Transform.set_position (Rot : Vec3 → Mat4) (t : Transform) (p : Vec3) : Transform :=
  Transform.recalculate_matrix Rot { t with position := p }

/-- `Transform::set_rotation` (named `set_rot` here): stores `Vec3::z() * r`
as the rotation vector, then recalculates the matrix. -/
def Transform.set_rot (Rot : Vec3 → Mat4) (t : Transform) (r : ℚ) : Transform :=
  Transform.recalculate_matrix Rot { t with rot := Vec3.smul Vec3.unit_z r }

/-- `Transform::set_scale`: stores the scale, then recalculates the matrix. -/
def Transform.set_scale (Rot : Vec3 → Mat4) (t : Transform) (s : Vec3) : Transform :=
  Transform.recalculate_matrix Rot { t with scale := s }

/-- `Transform::get_rotation` (named `get_rot` here): returns `rotation.z`. -/
def Transform.get_rot (t : Transform) : ℚ := t.rot.z

/-- One setter call on a `Transform`: the three mutating operations of the
public API. -/
inductive TOp where
  | setPos (p : Vec3)
  | setRot (r : ℚ)
  | setScale (s : Vec3)

/-- Apply one setter call. -/
def Transform.applyOp (Rot : Vec3 → Mat4) (t : Transform) : TOp → Transform
  | TOp.setPos p => t.set_position Rot p
  | TOp.setRot r => t.set_rot Rot r
  | TOp.setScale s => t.set_scale Rot s

/-- Apply a sequence of setter calls, first element first. -/
def Transform.applyOps (Rot : Vec3 → Mat4) (t : Transform) : List TOp → Transform
  | [] => t
  | op :: rest => Transform.applyOps Rot (t.applyOp Rot op) rest

/-- `Transform2D` from `transform.rs`: position and scale `Vec2`s and a float
rotation (field `rot` here). -/
structure Transform2D where
  position : Vec2
  rot : ℚ
  scale : Vec2
deriving DecidableEq

/-- `Transform2D::default()`: zero position, zero rotation, unit scale. -/
def Transform2D.default : Transform2D :=
  { position := Vec2.zeros, rot := 0, scale := ⟨1, 1⟩ }

/-- `impl Add for Transform2D`: position and rotation add componentwise, the
remaining field (scale) is taken from the right operand via `..rhs`. -/
instance : Add Transform2D where
  add a b := { position := a.position + b.position, rot := a.rot + b.rot, scale := b.scale }

/-- `Key` from `input.rs`: the closed keyboard-key enumeration. -/
inductive Key where
  | Space
  | A | B | C | D | E | F | G | H | I | J | K | L | M
  | N | O | P | Q | R | S | T | U | V | W | X | Y | Z
  | Num0 | Num1 | Num2 | Num3 | Num4 | Num5 | Num6 | Num7 | Num8 | Num9
  | Unknown
deriving DecidableEq

/-- `impl From<&str> for Key`: canonicalize a raw key label. The match arms
are transcribed from the source literally; note the source has no arm for
the digit label between 5 and 7, which therefore falls to the default
`Unknown` arm. -/
def Key.fromStr : String → Key
  | "Space" => Key.Space
  | "a" | "A" => Key.A
  | "b" | "B" => Key.B
  | "c" | "C" => Key.C
  | "d" | "D" => Key.D
  | "e" | "E" => Key.E
  | "f" | "F" => Key.F
  | "g" | "G" => Key.G
  | "h" | "H" => Key.H
  | "i" | "I" => Key.I
  | "j" | "J" => Key.J
  | "k" | "K" => Key.K
  | "l" | "L" => Key.L
  | "m" | "M" => Key.M
  | "n" | "N" => Key.N
  | "o" | "O" => Key.O
  | "p" | "P" => Key.P
  | "q" | "Q" => Key.Q
  | "r" | "R" => Key.R
  | "s" | "S" => Key.S
  | "t" | "T" => Key.T
  | "u" | "U" => Key.U
  | "v" | "V" => Key.V
  | "w" | "W" => Key.W
  | "x" | "X" => Key.X
  | "y" | "Y" => Key.Y
  | "z" | "Z" => Key.Z
  | "0" => Key.Num0
  | "1" => Key.Num1
  | "2" => Key.Num2
  | "3" => Key.Num3
  | "4" => Key.Num4
  | "5" => Key.Num5
  | "7" => Key.Num7
  | "8" => Key.Num8
  | "9" => Key.Num9
  | _ => Key.Unknown

/-- `InputManager` from `input.rs`: the pressed-key set (`BTreeSet<Key>`,
modelled as `Finset Key`) and the mouse position. -/
structure InputManager where
  keyboard_states : Finset Key
  mouse_position : Vec2
deriving DecidableEq

/-- `InputManager::new()` / `Default`: empty pressed set, zero mouse position. -/
def InputManager.new : InputManager := { keyboard_states := ∅, mouse_position := Vec2.zeros }

/-- `InputManager::key_down`: inserts the key into the pressed set. -/
def InputManager.key_down (m : InputManager) (k : Key) : InputManager :=
  { m with keyboard_states := insert k m.keyboard_states }

/-- `InputManager::key_up`: removes the key from the pressed set. -/
def InputManager.key_up (m : InputManager) (k : Key) : InputManager :=
  { m with keyboard_states := m.keyboard_states.erase k }

/-- `InputManager::get_key_state`: membership query on the pressed set. -/
def InputManager.get_key_state (m : InputManager) (k : Key) : Bool :=
  decide (k ∈ m.keyboard_states)

/-- `InputManager::consume_key_state`: `BTreeSet::remove`, which returns
whether the key was present and removes it; modelled as the returned `Bool`
paired with the resulting manager state. -/
def InputManager.consume_key_state (m : InputManager) (k : Key) : Bool × InputManager :=
  (decide (k ∈ m.keyboard_states), { m with keyboard_states := m.keyboard_states.erase k })

/-- `InputManager::set_key_state`: canonicalize the label and dispatch to
`key_down` or `key_up`. -/
def InputManager.set_key_state (m : InputManager) (key : String) (is_down : Bool) : InputManager :=
  if is_down then m.key_down (Key.fromStr key) else m.key_up (Key.fromStr key)

/-- `PlayerState` from `game.rs`. -/
inductive PlayerState where
  | Idle
  | IdleLeft
  | Jumping
  | JumpingLeft
deriving DecidableEq

/-- `Color32` from the crate root (a 4-tuple of `f32` used as UV
coordinates); the crate-root file defining it is outside `src/`, but all
that matters here is that it is four scalars. -/
structure Color32 where
  c0 : ℚ
  c1 : ℚ
  c2 : ℚ
  c3 : ℚ
deriving DecidableEq

/-- Modelled from the spec: `SubTexture` (from `texture.rs`, which is not
under `src/`) is a sprite region, "a rectangular sub-area of a shared
texture atlas, identified by UV offset and size"; the shared texture handle
carries no data relevant to the claims, so only the UV rectangle is kept. -/
structure SubTexture where
  uv : Color32
deriving DecidableEq

/-- The sprite region bound to `PlayerState::Idle` in `Player::default()`:
`SubTexture::new_with_coords(texture, Color32(0.01, 0.1, 1.0/6.0, 2.0/6.0))`. -/
def idle_sprite : SubTexture := ⟨⟨1/100, 1/10, 1/6, 1/3⟩⟩

/-- The sprite region bound to `PlayerState::IdleLeft` in `Player::default()`:
`SubTexture::new_with_coords(texture, Color32(0.1, 0.01, 1.0/6.0, 2.0/6.0))`. -/
def idle_left_sprite : SubTexture := ⟨⟨1/10, 1/100, 1/6, 1/3⟩⟩

/-- `Player` from `game.rs`. The `BTreeMap<PlayerState, SubTexture>` sprite
map is modelled as a function to `Option SubTexture` (absent key = `none`). -/
structure Player where
  state : PlayerState
  position : Vec2
  velocity : Vec2
  is_grounded : Bool
  is_backward : Bool
  is_jumping : Bool
  sprites : PlayerState → Option SubTexture

/-- `Player::default()`: `Idle` state, zero position and velocity, flags
false, and sprite bindings for exactly `Idle` and `IdleLeft`. -/
def Player.default : Player where
  state := PlayerState.Idle
  position := Vec2.zeros
  velocity := Vec2.zeros
  is_grounded := false
  is_backward := false
  is_jumping := false
  sprites := fun s =>
    match s with
    | PlayerState.Idle => some idle_sprite
    | PlayerState.IdleLeft => some idle_left_sprite
    | _ => none

/-- `Player::calculate_state`: recompute `state` from the two flags. -/
def Player.calculate_state (p : Player) : Player :=
  { p with state :=
      if p.is_jumping then
        if p.is_backward then PlayerState.JumpingLeft else PlayerState.Jumping
      else
        if p.is_backward then PlayerState.IdleLeft else PlayerState.Idle }

/-- `Player::handle_input`: net horizontal axis `(D as i32) - (A as i32)`,
applied to `position.x` as `horizontal_movement as f32 / 100.0`, then
`calculate_state`. -/
def Player.handle_input (p : Player) (input : InputManager) : Player :=
  let horizontal_movement : ℤ :=
    (if input.get_key_state Key.D then 1 else 0) - (if input.get_key_state Key.A then 1 else 0)
  Player.calculate_state
    { p with position := { p.position with x := p.position.x + (horizontal_movement : ℚ) / 100 } }

/-- `Player::update`: `position += velocity * delta_time`. -/
def Player.update (p : Player) (delta_time : ℚ) : Player :=
  { p with position := p.position + p.velocity.smul delta_time }

/-- `Player::get_sprite`:
`self.sprites.get(&self.state).unwrap_or(self.sprites.get(&PlayerState::Idle).unwrap())`.
Rust evaluates the `unwrap_or` argument eagerly, so the `Idle` lookup is
unwrapped on every call; `none` models the panic of that `unwrap` when the
`Idle` binding is absent. -/
def Player.get_sprite (p : Player) : Option SubTexture :=
  match p.sprites PlayerState.Idle with
  | none => none
  | some idle => some ((p.sprites p.state).getD idle)

/-- Helper for C1: a single setter call always leaves the cached matrix equal
to translation times rotation times scaling of the resulting fields. -/
theorem applyOp_matrix (Rot : Vec3 → Mat4) (t : Transform) (op : TOp) :
    (t.applyOp Rot op).matrix =
      Mat4.new_translation (t.applyOp Rot op).position * Rot (t.applyOp Rot op).rot *
        Mat4.new_nonuniform_scaling (t.applyOp Rot op).scale := by
  cases op <;> rfl

/-- C1: after any nonempty sequence of `set_position` / `set_rotation` /
`set_scale` calls on any `Transform`, the cached matrix equals
`new_translation(position) * new_rotation(rotation) * new_nonuniform_scaling(scale)`
computed from the final fields, for every rotation-matrix builder `Rot`;
the matrix is recomputed synchronously inside each setter. -/
theorem transform_matrix_invariant (Rot : Vec3 → Mat4) (t : Transform)
    (ops : List TOp) (h : ops ≠ []) :
    (Transform.applyOps Rot t ops).matrix =
      Mat4.new_translation (Transform.applyOps Rot t ops).position *
        Rot (Transform.applyOps Rot t ops).rot *
        Mat4.new_nonuniform_scaling (Transform.applyOps Rot t ops).scale := by
  induction ops generalizing t with
  | nil => exact absurd rfl h
  | cons op rest ih =>
    cases rest with
    | nil => exact applyOp_matrix Rot t op
    | cons op2 rest2 =>
      exact ih (t.applyOp Rot op) (List.cons_ne_nil op2 rest2)

/-- Witness for C1 at a concrete input: the default transform after one
`set_scale` call, with the identity matrix standing in for the rotation
builder. -/
theorem transform_matrix_invariant_witness :
    (Transform.applyOps (fun _ => (1 : Mat4)) Transform.default
        [TOp.setScale ⟨2, 3, 4⟩]).matrix =
      Mat4.new_translation (Transform.applyOps (fun _ => (1 : Mat4)) Transform.default
          [TOp.setScale ⟨2, 3, 4⟩]).position *
        (fun _ => (1 : Mat4)) (Transform.applyOps (fun _ => (1 : Mat4)) Transform.default
          [TOp.setScale ⟨2, 3, 4⟩]).rot *
        Mat4.new_nonuniform_scaling (Transform.applyOps (fun _ => (1 : Mat4)) Transform.default
          [TOp.setScale ⟨2, 3, 4⟩]).scale :=
  transform_matrix_invariant (fun _ => (1 : Mat4)) Transform.default
    [TOp.setScale ⟨2, 3, 4⟩] (List.cons_ne_nil _ _)

/-- C2: after `calculate_state`, the state is the pure function of the two
flags given by the 2x2 table — `(false,false) ↦ Idle`, `(true,false) ↦ Jumping`,
`(false,true) ↦ IdleLeft`, `(true,true) ↦ JumpingLeft` — regardless of the
prior state and all other fields of the player. -/
theorem calculate_state_table (p : Player) :
    (Player.calculate_state { p with is_jumping := false, is_backward := false }).state =
        PlayerState.Idle ∧
    (Player.calculate_state { p with is_jumping := true, is_backward := false }).state =
        PlayerState.Jumping ∧
    (Player.calculate_state { p with is_jumping := false, is_backward := true }).state =
        PlayerState.IdleLeft ∧
    (Player.calculate_state { p with is_jumping := true, is_backward := true }).state =
        PlayerState.JumpingLeft :=
  ⟨rfl, rfl, rfl, rfl⟩

/-- C3 (code bug): the `From<&str>` impl has arms for the digit labels
0 through 5 and 7 through 9 but none for the digit label between them, which
therefore canonicalizes to `Unknown` instead of `Num6`; its neighbours map to
their digit keys as the claim states. -/
theorem key_fromStr_digit_six :
    Key.fromStr ("5") = Key.Num5 ∧
    Key.fromStr ("6") = Key.Unknown ∧
    Key.fromStr ("7") = Key.Num7 :=
  ⟨rfl, rfl, rfl⟩

/-- C4: one `handle_input` call changes `position.x` by exactly
`((D pressed ? 1 : 0) - (A pressed ? 1 : 0)) / 100`, leaves `position.y`
unchanged, and recomputes the state from the (unchanged) flags; in
particular with only D pressed the delta is `1/100`, and with both A and D
pressed it is zero. -/
theorem handle_input_spec (input : InputManager) (p : Player) :
    (p.handle_input input).position.x =
      p.position.x +
        ((((if input.get_key_state Key.D then 1 else 0) -
            (if input.get_key_state Key.A then 1 else 0) : ℤ) : ℚ) / 100) ∧
    (p.handle_input input).position.y = p.position.y ∧
    (p.handle_input input).state = (Player.calculate_state p).state ∧
    (p.handle_input { keyboard_states := {Key.D}, mouse_position := Vec2.zeros }).position.x =
      p.position.x + 1 / 100 ∧
    (p.handle_input
        { keyboard_states := {Key.D, Key.A}, mouse_position := Vec2.zeros }).position.x =
      p.position.x := by
  refine ⟨rfl, rfl, rfl, ?_, ?_⟩ <;>
    simp [Player.handle_input, Player.calculate_state, InputManager.get_key_state]

/-- C5: `consume_key_state` returns exactly the pre-call membership of the
key, afterwards `get_key_state` on that key is false, and the resulting
manager state is identical to the one `key_up` produces (so it is
observationally equivalent to `get_key_state` followed by `key_up`). -/
theorem consume_key_state_spec (m : InputManager) (k : Key) :
    (m.consume_key_state k).1 = m.get_key_state k ∧
    (m.consume_key_state k).2.get_key_state k = false ∧
    (m.consume_key_state k).2 = m.key_up k := by
  refine ⟨rfl, ?_, rfl⟩
  simp [InputManager.consume_key_state, InputManager.get_key_state]

/-- C6: `Transform2D` addition adds positions and rotations componentwise and
takes the scale of the right operand; hence whenever the two scales differ,
the two orders of combining give different scales. -/
theorem transform2d_add_spec (a b : Transform2D) :
    (a + b).position = a.position + b.position ∧
    (a + b).rot = a.rot + b.rot ∧
    (a + b).scale = b.scale ∧
    (a.scale ≠ b.scale → (a + b).scale ≠ (b + a).scale) :=
  ⟨rfl, rfl, rfl, fun h => fun hc => h (hc.symm)⟩

/-- Witness for C6 at concrete transforms with different scales. -/
theorem transform2d_add_spec_witness :
    ((⟨⟨0, 0⟩, 0, ⟨1, 1⟩⟩ + ⟨⟨5, 5⟩, 2, ⟨2, 2⟩⟩ : Transform2D)).scale ≠
      ((⟨⟨5, 5⟩, 2, ⟨2, 2⟩⟩ + ⟨⟨0, 0⟩, 0, ⟨1, 1⟩⟩ : Transform2D)).scale :=
  (transform2d_add_spec ⟨⟨0, 0⟩, 0, ⟨1, 1⟩⟩ ⟨⟨5, 5⟩, 2, ⟨2, 2⟩⟩).2.2.2 (by decide)

/-- C7: whenever the sprite map has a binding for `Idle` (as the default
player does), `get_sprite` returns a sprite region without failing: the
current state's binding when it exists, otherwise the `Idle` binding; the
panic branch of the internal unwrap is unreachable. -/
theorem get_sprite_total (p : Player) (s : SubTexture)
    (h : p.sprites PlayerState.Idle = some s) :
    p.get_sprite = some ((p.sprites p.state).getD s) := by
  simp [Player.get_sprite, h]

/-- Witness for C7: the default-constructed player, whose `Idle` binding is
`idle_sprite`, gets a sprite successfully. -/
theorem get_sprite_total_witness :
    Player.default.get_sprite =
      some ((Player.default.sprites Player.default.state).getD idle_sprite) :=
  get_sprite_total Player.default idle_sprite rfl

/-- C8: after `key_down(k)` the key reads pressed, after `key_up(k)` it reads
released, regardless of prior state; both operations are idempotent, and
`key_up` on an absent key is a no-op rather than an error. -/
theorem key_state_spec (m : InputManager) (k : Key) :
    (m.key_down k).get_key_state k = true ∧
    (m.key_up k).get_key_state k = false ∧
    (m.key_down k).key_down k = m.key_down k ∧
    (m.key_up k).key_up k = m.key_up k ∧
    (m.get_key_state k = false → m.key_up k = m) := by
  obtain ⟨s, mp⟩ := m
  refine ⟨?_, ?_, ?_, ?_, ?_⟩
  · simp [InputManager.key_down, InputManager.get_key_state]
  · simp [InputManager.key_up, InputManager.get_key_state]
  · simp [InputManager.key_down, Finset.insert_idem]
  · simp [InputManager.key_up, Finset.erase_idem]
  · intro h
    simp only [InputManager.get_key_state, decide_eq_false_iff_not] at h
    simp [InputManager.key_up, Finset.erase_eq_of_not_mem h]

/-- Witness for C8: on a fresh manager, `key_up` of an unpressed key leaves
the manager unchanged. -/
theorem key_state_spec_witness :
    InputManager.new.key_up Key.A = InputManager.new :=
  (key_state_spec InputManager.new Key.A).2.2.2.2 (by decide)

/-- C9: `update` adds `velocity * delta_time` to the position componentwise
and changes nothing else — it takes no input manager and leaves the state,
velocity, flags and sprite map untouched. -/
theorem update_spec (p : Player) (delta_time : ℚ) :
    (p.update delta_time).position.x = p.position.x + p.velocity.x * delta_time ∧
    (p.update delta_time).position.y = p.position.y + p.velocity.y * delta_time ∧
    (p.update delta_time).state = p.state ∧
    (p.update delta_time).velocity = p.velocity ∧
    (p.update delta_time).is_grounded = p.is_grounded ∧
    (p.update delta_time).is_backward = p.is_backward ∧
    (p.update delta_time).is_jumping = p.is_jumping ∧
    (p.update delta_time).sprites = p.sprites :=
  ⟨rfl, rfl, rfl, rfl, rfl, rfl, rfl, rfl⟩

/-- C10: `set_rotation(r)` stores the rotation vector `(0, 0, r)`, zeroing
any prior X and Y components, so `get_rotation` immediately afterwards
returns exactly `r` and the rotation always lies on the Z axis. -/
theorem set_rot_z_axis (Rot : Vec3 → Mat4) (t : Transform) (r : ℚ) :
    (t.set_rot Rot r).rot = ⟨0, 0, r⟩ ∧
    (t.set_rot Rot r).rot.x = 0 ∧
    (t.set_rot Rot r).rot.y = 0 ∧
    (t.set_rot Rot r).get_rot = r := by
  have hv : Vec3.smul Vec3.unit_z r = ⟨0, 0, r⟩ := by
    simp [Vec3.smul, Vec3.unit_z]
  refine ⟨?_, ?_, ?_, ?_⟩ <;>
    simp [Transform.set_rot, Transform.recalculate_matrix, Transform.get_rot, hv]

end Moon
